import Mathlib

/-!
Verification of the MLP practical repository (notebook
`09b_Music_genre_classification_with_the_Million_Song_Dataset.ipynb`).

Part 1 embeds the notebook's `create_kaggle_submission_file` helper:
probability matrices become `List (List ℚ)`, the file system becomes an
association list from paths to contents, and each `raise ValueError(msg)`
becomes the error message returned alongside the unchanged file system.

Part 2 models the batch data provider (`mlp.data_providers`, whose code is
not part of this snapshot) from the specification: construction checks,
per-pass ordering, one-hot target expansion and the exhaustion/auto-reset
contract.
-/

/-- A file system: an association list from path to file contents.  A write
prepends, and `List.lookup` returns the most recent binding. -/
abbrev FS := List (String × String)

/-- Message of `ValueError('predictions should be an array of shape (10000, 25).')`. -/
def shapeMsg : String := "predictions should be an array of shape (10000, 25)."

/-- Message of `ValueError('predictions should be an array of probabilities in [0, 1].')`. -/
def rangeMsg : String := "predictions should be an array of probabilities in [0, 1]."

/-- Message of `ValueError('predictions rows should sum to one.')`. -/
def sumMsg : String := "predictions rows should sum to one."

/-- Message of `ValueError('File already exists at {0}'.format(output_file))`. -/
def existsMsg (output_file : String) : String :=
  "File already exists at " ++ output_file

/-- The shape test `predictions.shape == (10000, 25)` for a rectangular
matrix given as a list of rows. -/
def shapeCheck (predictions : List (List ℚ)) : Bool :=
  predictions.length == 10000 && predictions.all (fun r => r.length == 25)

/-- The test `np.all(predictions >= 0.) and np.all(predictions <= 1.)`. -/
def rangeCheck (predictions : List (List ℚ)) : Bool :=
  predictions.all (fun r => r.all (fun x => decide (0 ≤ x))) &&
    predictions.all (fun r => r.all (fun x => decide (x ≤ 1)))

/-- Default relative tolerance `1e-05` of `np.allclose`. -/
def rtol : ℚ := 1 / 100000

/-- Default absolute tolerance `1e-08` of `np.allclose`. -/
def atol : ℚ := 1 / 100000000

/-- The test `np.allclose(predictions.sum(-1), 1)`: every row sum `s`
satisfies `|s - 1| ≤ atol + rtol * |1|`. -/
def sumCheck (predictions : List (List ℚ)) : Bool :=
  predictions.all (fun r => decide (|r.sum - 1| ≤ atol + rtol * 1))

/-- Scanner of `np.argmax` over a vector: `argmaxAux l i best bv` scans `l`
whose head has index `i`, with current best index `best` holding value `bv`;
only a strictly larger value replaces the best, so the first occurrence of
the maximum wins, as in NumPy. -/
def argmaxAux : List ℚ → Nat → Nat → ℚ → Nat
  | [], _, best, _ => best
  | x :: xs, i, best, bv =>
    if bv < x then argmaxAux xs (i + 1) i x else argmaxAux xs (i + 1) best bv

/-- `row.argmax(-1)` for a single row (`0` on the empty row, which cannot
occur for a shape-checked matrix). -/
def listArgmax : List ℚ → Nat
  | [] => 0
  | x :: xs => argmaxAux xs 1 0 x

/-- The lines `np.savetxt` produces: the `header='Id,Class'` line followed by
one `'{id},{predicted class}'` line per row, ids `0, 1, ...` in order
(`ids = np.arange(...)`, `pred_classes = predictions.argmax(-1)`). -/
def submissionLines (predictions : List (List ℚ)) : List String :=
  "Id,Class" ::
    (List.range predictions.length).map
      (fun i => toString i ++ "," ++ toString (listArgmax (predictions.getD i [])))

/-- The full file contents written by `np.savetxt`: every line, the header
included, is terminated by a newline. -/
def submissionContent (predictions : List (List ℚ)) : String :=
  String.intercalate "\n" (submissionLines predictions) ++ "\n"

/-- The notebook's `create_kaggle_submission_file(predictions, output_file,
overwrite=False)`.  Returns the file system after the call together with the
message of the `ValueError` raised, if any; an error leaves the file system
untouched because each of the four checks precedes the single `np.savetxt`
write. -/
def create_kaggle_submission_file (predictions : List (List ℚ))
    (output_file : String) (overwrite : Bool) (fs : FS) : FS × Option String :=
  if !shapeCheck predictions then
    (fs, some shapeMsg)
  else if !rangeCheck predictions then
    (fs, some rangeMsg)
  else if !sumCheck predictions then
    (fs, some sumMsg)
  else if (fs.lookup output_file).isSome && !overwrite then
    (fs, some (existsMsg output_file))
  else
    ((output_file, submissionContent predictions) :: fs, none)

/-- The uniform predictions matrix of the spec's submission-writer test:
10000 rows, each `[1/25, ..., 1/25]`. -/
def uniformPreds : List (List ℚ) := List.replicate 10000 (List.replicate 25 (1 / 25))

/-- A shape-valid matrix of zeros: rows fail the sum-to-one check. -/
def zeroPreds : List (List ℚ) := List.replicate 10000 (List.replicate 25 0)

/-- A shape-valid matrix of twos: entries fail the `[0, 1]` range check. -/
def twoPreds : List (List ℚ) := List.replicate 10000 (List.replicate 25 2)

/-- Modelled from the spec: the provider's private random source (the code of
`mlp.data_providers` is not in this snapshot).  A linear congruential step,
so that all randomness is a deterministic function of the seed. -/
def lcgNext (s : Nat) : Nat := (1103515245 * s + 12345) % 2147483648

/-- Modelled from the spec: selection shuffle driven by the random source.
At each step the element at pseudo-random position `s % l.length` is drawn
and removed; the fuel argument makes termination structural. -/
def shuffleGo : Nat → Nat → List Nat → List Nat
  | 0, _, _ => []
  | fuel + 1, s, l =>
    if h : l = [] then []
    else
      l.get ⟨s % l.length, Nat.mod_lt s (List.length_pos.mpr h)⟩ ::
        shuffleGo fuel (lcgNext s)
          (l.erase (l.get ⟨s % l.length, Nat.mod_lt s (List.length_pos.mpr h)⟩))

/-- Modelled from the spec: the random permutation of `0..N-1` derived from
the seed, used by `reset_pass()` when `shuffle_flag` is set. -/
def randomPerm (seed n : Nat) : List Nat := shuffleGo n (lcgNext seed) (List.range n)

/-- Modelled from the spec: the immutable dataset behind a provider — two
parallel sequences `inputs` and `targets` and the number of classes. -/
structure Dataset where
  inputs : List (List ℚ)
  targets : List Nat
  num_classes : Nat
deriving DecidableEq

/-- Dataset size `N`: the number of target labels. -/
def Dataset.size (ds : Dataset) : Nat := ds.targets.length

/-- Modelled from the spec: provider state — `batch_size`, `num_classes`,
`current_order` (a permutation of `0..N-1`), `cursor` (next unconsumed
position), `shuffle_flag` and the private random source. -/
structure Provider where
  N : Nat
  batch_size : Nat
  num_classes : Nat
  shuffle_flag : Bool
  rng : Nat
  current_order : List Nat
  cursor : Nat
deriving DecidableEq

/-- Modelled from the spec: the construction-time error. -/
inductive ProviderError where
  | configurationError
deriving DecidableEq

/-- The valid dataset split identifiers. -/
def validSplits : List String := ["train", "valid", "test"]

/-- Modelled from the spec: `reset_pass()` re-derives `current_order` — a
seed-driven random permutation when `shuffle_flag` is set, identity order
otherwise — resets `cursor` to 0 and advances the random source. -/
def resetPass (p : Provider) : Provider :=
  { p with
      current_order := if p.shuffle_flag then randomPerm p.rng p.N else List.range p.N,
      cursor := 0,
      rng := lcgNext p.rng }

/-- Modelled from the spec: provider construction.  Fails with
`ConfigurationError` when `batch_size <= 0`, `batch_size > N` or the split
identifier is invalid; otherwise the first pass is initialized by
`reset_pass()`. -/
def makeProvider (split : String) (ds : Dataset) (batch_size : Int)
    (shuffle_flag : Bool) (seed : Nat) : Except ProviderError Provider :=
  if batch_size ≤ 0 ∨ (ds.size : Int) < batch_size ∨ split ∉ validSplits then
    .error .configurationError
  else
    .ok (resetPass
      { N := ds.size, batch_size := batch_size.toNat, num_classes := ds.num_classes,
        shuffle_flag := shuffle_flag, rng := seed, current_order := [], cursor := 0 })

/-- Modelled from the spec: derived property `num_batches = floor(N / batch_size)`. -/
def Provider.num_batches (p : Provider) : Nat := p.N / p.batch_size

/-- The slice `current_order[cursor : cursor + batch_size]` consumed by one
`next_batch()` call. -/
def batchSlice (p : Provider) : List Nat :=
  (p.current_order.drop p.cursor).take p.batch_size

/-- Modelled from the spec: one-hot encoding of the integer class label `k`
as a vector of length `c` with a single 1 at index `k`. -/
def oneHot (c k : Nat) : List Nat :=
  (List.range c).map (fun j => if j = k then 1 else 0)

/-- Modelled from the spec: `next_batch()`.  When `cursor + batch_size > N`
the pass is exhausted: exhaustion is signaled (`none`, the StopIteration
sentinel) and the provider autonomously calls `reset_pass()`.  Otherwise the
rows selected by `batchSlice` are gathered, targets are expanded to one-hot
vectors of width `num_classes`, and `cursor` advances by `batch_size`. -/
def next_batch (ds : Dataset) (p : Provider) :
    Option (List (List ℚ) × List (List Nat)) × Provider :=
  if p.N < p.cursor + p.batch_size then
    (none, resetPass p)
  else
    (some ((batchSlice p).map (fun i => ds.inputs.getD i []),
        (batchSlice p).map (fun i => oneHot p.num_classes (ds.targets.getD i 0))),
      { p with cursor := p.cursor + p.batch_size })

/-- Iterate `next_batch` a given number of times, collecting the index slice
consumed by every call that emitted a batch (end-of-pass signals collect
nothing), together with the final provider state. -/
def pullSlices (ds : Dataset) : Nat → Provider → List (List Nat) × Provider
  | 0, p => ([], p)
  | k + 1, p =>
    match next_batch ds p with
    | (some _, q) =>
      let r := pullSlices ds k q
      (batchSlice p :: r.1, r.2)
    | (none, q) => pullSlices ds k q

/-- The provider after `k` further calls of `reset_pass()` — its sequence of
per-pass orderings. -/
def afterResets (p : Provider) : Nat → Provider
  | 0 => p
  | k + 1 => resetPass (afterResets p k)

/-- A small concrete dataset with 4 rows and 3 classes. -/
def demoDS : Dataset :=
  { inputs := List.replicate 4 [], targets := List.replicate 4 0, num_classes := 3 }

/-- A placeholder provider used only as the default of `Option.getD`. -/
def dummyProvider : Provider :=
  { N := 0, batch_size := 1, num_classes := 0, shuffle_flag := false, rng := 0,
    current_order := [], cursor := 0 }

/-- The provider over `demoDS` with `batch_size = 2` and no shuffling. -/
def demoProv : Provider :=
  ((makeProvider "train" demoDS 2 false 0).toOption).getD dummyProvider

/-- The shuffling provider over `demoDS` with `batch_size = 1` and seed 7. -/
def demoShufProv : Provider :=
  ((makeProvider "train" demoDS 1 true 7).toOption).getD dummyProvider

/-- The concrete scenario dataset of the spec: `N = 100`. -/
def ds100 : Dataset :=
  { inputs := List.replicate 100 [], targets := List.replicate 100 0, num_classes := 10 }

/-- The concrete scenario provider: `N = 100`, `batch_size = 50`,
`shuffle = false`. -/
def prov100 : Provider :=
  ((makeProvider "train" ds100 50 false 0).toOption).getD dummyProvider

/-- The scenario provider after the two batches of pass 1 were consumed. -/
def prov100end : Provider := (pullSlices ds100 2 prov100).2

-- Helper lemmas about `List.all` on replicated lists, used to evaluate the
-- submission checks on concrete 10000-row matrices without kernel-reducing
-- them element by element.

lemma allReplicateTrue {α : Type} (n : Nat) (a : α) (p : α → Bool)
    (h : p a = true) : (List.replicate n a).all p = true := by
  rw [List.all_eq_true]
  intro x hx
  rw [List.eq_of_mem_replicate hx]
  exact h

lemma allReplicateFalse {α : Type} (n : Nat) (a : α) (p : α → Bool)
    (hn : n ≠ 0) (h : p a = false) : (List.replicate n a).all p = false := by
  cases hall : (List.replicate n a).all p with
  | false => rfl
  | true =>
    rw [List.all_eq_true] at hall
    have ha : a ∈ List.replicate n a := List.mem_replicate.mpr ⟨hn, rfl⟩
    rw [hall a ha] at h
    exact absurd h (by simp)

lemma shapeCheckReplicate (q : ℚ) :
    shapeCheck (List.replicate 10000 (List.replicate 25 q)) = true := by
  have h1 : ((List.replicate 10000 (List.replicate 25 q)).length == 10000) = true := by
    rw [List.length_replicate]
    rfl
  have h2 : (List.replicate 10000 (List.replicate 25 q)).all
      (fun r => r.length == 25) = true := by
    apply allReplicateTrue
    rw [List.length_replicate]
    rfl
  unfold shapeCheck
  rw [h1, h2]
  rfl

lemma rangeCheckReplicate (q : ℚ) (h0 : 0 ≤ q) (h1 : q ≤ 1) :
    rangeCheck (List.replicate 10000 (List.replicate 25 q)) = true := by
  have hl : (List.replicate 10000 (List.replicate 25 q)).all
      (fun r => r.all fun x => decide (0 ≤ x)) = true :=
    allReplicateTrue _ _ _ (allReplicateTrue _ _ _ (decide_eq_true h0))
  have hr : (List.replicate 10000 (List.replicate 25 q)).all
      (fun r => r.all fun x => decide (x ≤ 1)) = true :=
    allReplicateTrue _ _ _ (allReplicateTrue _ _ _ (decide_eq_true h1))
  unfold rangeCheck
  rw [hl, hr]
  rfl

lemma sumCheckReplicateEval (q : ℚ)
    (h : |(25 : ℚ) * q - 1| ≤ atol + rtol * 1) :
    sumCheck (List.replicate 10000 (List.replicate 25 q)) = true := by
  apply allReplicateTrue
  apply decide_eq_true
  rw [List.sum_replicate, nsmul_eq_mul]
  push_cast
  exact h

lemma sumCheckReplicateEvalFalse (q : ℚ)
    (h : ¬ |(25 : ℚ) * q - 1| ≤ atol + rtol * 1) :
    sumCheck (List.replicate 10000 (List.replicate 25 q)) = false := by
  apply allReplicateFalse _ _ _ (by norm_num)
  apply decide_eq_false
  rw [List.sum_replicate, nsmul_eq_mul]
  push_cast
  exact h

lemma shapeCheck_uniform : shapeCheck uniformPreds = true := by
  unfold uniformPreds
  exact shapeCheckReplicate _

lemma rangeCheck_uniform : rangeCheck uniformPreds = true := by
  unfold uniformPreds
  exact rangeCheckReplicate _ (by norm_num) (by norm_num)

lemma sumCheck_uniform : sumCheck uniformPreds = true := by
  unfold uniformPreds
  exact sumCheckReplicateEval _ (by norm_num [atol, rtol])

lemma shapeCheck_zero : shapeCheck zeroPreds = true := by
  unfold zeroPreds
  exact shapeCheckReplicate _

lemma rangeCheck_zero : rangeCheck zeroPreds = true := by
  unfold zeroPreds
  exact rangeCheckReplicate _ (by norm_num) (by norm_num)

lemma sumCheck_zero : sumCheck zeroPreds = false := by
  unfold zeroPreds
  exact sumCheckReplicateEvalFalse _ (by norm_num [atol, rtol])

lemma shapeCheck_two : shapeCheck twoPreds = true := by
  unfold twoPreds
  exact shapeCheckReplicate _

lemma rangeCheck_two : rangeCheck twoPreds = false := by
  have h2 : twoPreds.all (fun r => r.all fun x => decide (x ≤ 1)) = false := by
    unfold twoPreds
    exact allReplicateFalse _ _ _ (by norm_num)
      (allReplicateFalse _ _ _ (by norm_num) (decide_eq_false (by norm_num)))
  unfold rangeCheck
  rw [h2, Bool.and_false]

lemma shuffleGo_perm :
    ∀ (fuel s : Nat) (l : List Nat), l.length ≤ fuel → (shuffleGo fuel s l).Perm l := by
  intro fuel
  induction fuel with
  | zero =>
    intro s l hl
    have : l = [] := List.eq_nil_of_length_eq_zero (Nat.le_zero.mp hl)
    subst this
    simp [shuffleGo]
  | succ n ih =>
    intro s l hl
    by_cases h : l = []
    · subst h
      simp [shuffleGo]
    · rw [shuffleGo, dif_neg h]
      have ha : l.get ⟨s % l.length, Nat.mod_lt s (List.length_pos.mpr h)⟩ ∈ l :=
        List.get_mem _ _ _
      have hlen : (l.erase (l.get ⟨s % l.length, Nat.mod_lt s (List.length_pos.mpr h)⟩)).length ≤ n := by
        rw [List.length_erase_of_mem ha]
        have : 0 < l.length := List.length_pos.mpr h
        omega
      exact ((ih (lcgNext s) _ hlen).cons _).trans (List.perm_cons_erase ha).symm

lemma randomPerm_perm (seed n : Nat) : (randomPerm seed n).Perm (List.range n) :=
  shuffleGo_perm n (lcgNext seed) (List.range n) (List.length_range n).le

lemma resetPass_order (p : Provider) :
    (resetPass p).current_order.Perm (List.range p.N) := by
  unfold resetPass
  by_cases h : p.shuffle_flag
  · rw [if_pos h]
    exact randomPerm_perm _ _
  · rw [if_neg h]

lemma makeProvider_ok (split : String) (ds : Dataset) (b : Int) (sh : Bool)
    (seed : Nat) (p : Provider) (h : makeProvider split ds b sh seed = .ok p) :
    p.N = ds.size ∧ 0 < p.batch_size ∧ p.batch_size ≤ p.N ∧ p.cursor = 0 ∧
    p.current_order.Perm (List.range p.N) ∧ p.current_order.length = p.N := by
  unfold makeProvider at h
  by_cases hc : b ≤ 0 ∨ (ds.size : Int) < b ∨ split ∉ validSplits
  · rw [if_pos hc] at h
    exact absurd h (by simp)
  · rw [if_neg hc] at h
    push_neg at hc
    obtain ⟨hb0, hbN, _⟩ := hc
    simp only [Except.ok.injEq] at h
    subst h
    refine ⟨rfl, by simp [resetPass]; omega, by simp [resetPass]; omega,
      rfl, resetPass_order _, ?_⟩
    exact ((resetPass_order _).length_eq).trans (List.length_range _)

lemma pullSlices_run (ds : Dataset) :
    ∀ (k : Nat) (p : Provider),
      p.cursor + k * p.batch_size ≤ p.N →
      (pullSlices ds k p).1.flatten =
        (p.current_order.drop p.cursor).take (k * p.batch_size) := by
  intro k
  induction k with
  | zero =>
    intro p _
    simp [pullSlices]
  | succ n ih =>
    intro p hk
    rw [Nat.succ_mul] at hk
    have hle : ¬ (p.N < p.cursor + p.batch_size) := by omega
    have hnb : next_batch ds p =
        (some ((batchSlice p).map (fun i => ds.inputs.getD i []),
            (batchSlice p).map (fun i => oneHot p.num_classes (ds.targets.getD i 0))),
          { p with cursor := p.cursor + p.batch_size }) := by
      unfold next_batch
      rw [if_neg hle]
    have hk2 : p.cursor + p.batch_size + n * p.batch_size ≤ p.N := by omega
    have ih1 := ih { p with cursor := p.cursor + p.batch_size } hk2
    have hpull : pullSlices ds (n + 1) p =
        (batchSlice p :: (pullSlices ds n { p with cursor := p.cursor + p.batch_size }).1,
          (pullSlices ds n { p with cursor := p.cursor + p.batch_size }).2) := by
      rw [pullSlices, hnb]
    rw [hpull, List.flatten_cons, ih1]
    show (p.current_order.drop p.cursor).take p.batch_size ++
        (p.current_order.drop (p.cursor + p.batch_size)).take (n * p.batch_size) =
      (p.current_order.drop p.cursor).take ((n + 1) * p.batch_size)
    rw [Nat.succ_mul, Nat.add_comm (n * p.batch_size) p.batch_size,
      List.take_add (p.current_order.drop p.cursor) p.batch_size (n * p.batch_size),
      List.drop_drop]

/-- C1: for every predictions matrix of shape (10000, 25) with all entries in
[0, 1] and every row summing to 1 within tolerance, and a destination that
does not already exist (or overwrite requested),
`create_kaggle_submission_file` writes a comma-separated file whose first
line is the header `Id,Class` followed by exactly 10000 data rows (10001
lines total), the data row for index `i` being `i` and the argmax of row `i`
separated by a comma, with ids running 0..9999 in order. -/
theorem create_kaggle_valid_writes (preds : List (List ℚ)) (out : String)
    (ov : Bool) (fs : FS)
    (hshape : shapeCheck preds = true) (hrange : rangeCheck preds = true)
    (hsum : sumCheck preds = true)
    (hdest : fs.lookup out = none ∨ ov = true) :
    create_kaggle_submission_file preds out ov fs =
      ((out, submissionContent preds) :: fs, none) ∧
    (submissionLines preds).length = 10001 ∧
    (submissionLines preds)[0]? = some "Id,Class" ∧
    ∀ i, i < 10000 →
      (submissionLines preds)[i + 1]? =
        some (toString i ++ "," ++ toString (listArgmax (preds.getD i []))) := by
  have hlen : preds.length = 10000 := by
    have h := hshape
    unfold shapeCheck at h
    rw [Bool.and_eq_true] at h
    simp only [beq_iff_eq] at h
    exact h.1
  refine ⟨?_, ?_, ?_, ?_⟩
  · rcases hdest with h | h
    · simp [create_kaggle_submission_file, hshape, hrange, hsum, h]
    · simp [create_kaggle_submission_file, hshape, hrange, hsum, h]
  · simp [submissionLines, hlen]
  · unfold submissionLines
    rw [List.getElem?_cons_zero]
  · intro i hi
    unfold submissionLines
    rw [hlen, List.getElem?_cons_succ, List.getElem?_map, List.getElem?_range hi]
    rfl

/-- Witness for C1 on the uniform 10000 × 25 matrix. -/
theorem create_kaggle_valid_writes_witness :
    shapeCheck uniformPreds = true ∧ rangeCheck uniformPreds = true ∧
    sumCheck uniformPreds = true ∧
    create_kaggle_submission_file uniformPreds "submission.csv" false [] =
      ([("submission.csv", submissionContent uniformPreds)], none) ∧
    (submissionLines uniformPreds).length = 10001 ∧
    (submissionLines uniformPreds)[0]? = some "Id,Class" ∧
    (submissionLines uniformPreds)[9999 + 1]? =
      some (toString 9999 ++ "," ++ toString (listArgmax (uniformPreds.getD 9999 []))) := by
  have h := create_kaggle_valid_writes uniformPreds "submission.csv" false []
    shapeCheck_uniform rangeCheck_uniform sumCheck_uniform (Or.inl rfl)
  exact ⟨shapeCheck_uniform, rangeCheck_uniform, sumCheck_uniform,
    h.1, h.2.1, h.2.2.1, h.2.2.2 9999 (by norm_num)⟩

/-- C2: for every predictions matrix whose shape does not match the expected
(10000, 25) shape, `create_kaggle_submission_file` raises the shape-mismatch
`ValueError` before any file write, leaving the file system unchanged. -/
theorem create_kaggle_shape_error (preds : List (List ℚ)) (out : String)
    (ov : Bool) (fs : FS) (hshape : shapeCheck preds = false) :
    create_kaggle_submission_file preds out ov fs = (fs, some shapeMsg) := by
  simp [create_kaggle_submission_file, hshape]

/-- Witness for C2 on the empty matrix (0 rows instead of 10000). -/
theorem create_kaggle_shape_error_witness :
    shapeCheck ([] : List (List ℚ)) = false ∧
    create_kaggle_submission_file [] "submission.csv" false [] =
      ([], some shapeMsg) :=
  ⟨rfl, create_kaggle_shape_error [] "submission.csv" false [] rfl⟩

/-- C3 counterexample: the 1 × 1 matrix `[[2]]` contains an entry outside
[0, 1] (and its row does not sum to 1), yet the call raises the
shape-mismatch `ValueError`, not the value-range one: the claim quantifies
over every predictions matrix, but the shape check runs first. -/
theorem create_kaggle_range_claim_cex :
    ¬ ((0 : ℚ) ≤ 2 ∧ (2 : ℚ) ≤ 1) ∧
    create_kaggle_submission_file [[(2 : ℚ)]] "submission.csv" false [] =
      ([], some shapeMsg) ∧
    shapeMsg ≠ rangeMsg ∧ shapeMsg ≠ sumMsg := by
  refine ⟨by norm_num, ?_, by decide, by decide⟩
  have h : shapeCheck [[(2 : ℚ)]] = false := rfl
  simp [create_kaggle_submission_file, h]

/-- C3 amended: for every predictions matrix of the checked (10000, 25) shape
that contains an entry outside [0, 1] or a row not summing to 1 within
tolerance, `create_kaggle_submission_file` raises a `ValueError` whose
message is the value-range one or the row-sum one (the spec's
`ValueRangeError`), and writes nothing. -/
theorem create_kaggle_range_error_amended (preds : List (List ℚ)) (out : String)
    (ov : Bool) (fs : FS) (hshape : shapeCheck preds = true)
    (hbad : rangeCheck preds = false ∨ sumCheck preds = false) :
    (create_kaggle_submission_file preds out ov fs).1 = fs ∧
    ((create_kaggle_submission_file preds out ov fs).2 = some rangeMsg ∨
      (create_kaggle_submission_file preds out ov fs).2 = some sumMsg) := by
  rcases hbad with h | h
  · simp [create_kaggle_submission_file, hshape, h]
  · cases hr : rangeCheck preds
    · simp [create_kaggle_submission_file, hshape, hr]
    · simp [create_kaggle_submission_file, hshape, hr, h]

/-- Witness for the amended C3 on the shape-valid all-zeros matrix, whose
rows sum to 0. -/
theorem create_kaggle_range_error_amended_witness :
    shapeCheck zeroPreds = true ∧ sumCheck zeroPreds = false ∧
    (create_kaggle_submission_file zeroPreds "submission.csv" false []).1 = [] ∧
    ((create_kaggle_submission_file zeroPreds "submission.csv" false []).2 = some rangeMsg ∨
      (create_kaggle_submission_file zeroPreds "submission.csv" false []).2 = some sumMsg) := by
  have h := create_kaggle_range_error_amended zeroPreds "submission.csv" false []
    shapeCheck_zero (Or.inr sumCheck_zero)
  exact ⟨shapeCheck_zero, sumCheck_zero, h.1, h.2⟩

/-- C4 counterexample: the destination exists and overwrite is not requested,
yet with a shape-invalid predictions matrix the call raises the
shape-mismatch `ValueError`, not the overwrite-refused one: the claim
quantifies over every call with an existing destination, but validation
runs first. -/
theorem create_kaggle_overwrite_claim_cex :
    (([("submission.csv", "old")] : FS).lookup "submission.csv" = some "old") ∧
    create_kaggle_submission_file [[(2 : ℚ)]] "submission.csv" false
        [("submission.csv", "old")] =
      ([("submission.csv", "old")], some shapeMsg) ∧
    shapeMsg ≠ existsMsg "submission.csv" := by
  refine ⟨by decide, ?_, by decide⟩
  have h : shapeCheck [[(2 : ℚ)]] = false := rfl
  simp [create_kaggle_submission_file, h]

/-- C4 amended: for every call whose predictions pass the shape, range and
row-sum checks, if the destination path already exists and overwrite is not
requested (its default), the overwrite-refused `ValueError` is raised and
the existing file's contents are unchanged; calling the writer twice on the
same fresh path without overwrite raises this error on the second call. -/
theorem create_kaggle_overwrite_error_amended (preds : List (List ℚ))
    (out : String) (fs fs0 : FS)
    (hshape : shapeCheck preds = true) (hrange : rangeCheck preds = true)
    (hsum : sumCheck preds = true)
    (hex : (fs.lookup out).isSome = true) (hfresh : fs0.lookup out = none) :
    create_kaggle_submission_file preds out false fs = (fs, some (existsMsg out)) ∧
    (create_kaggle_submission_file preds out false fs).1.lookup out = fs.lookup out ∧
    (create_kaggle_submission_file preds out false
        (create_kaggle_submission_file preds out false fs0).1).2 =
      some (existsMsg out) := by
  have h1 : create_kaggle_submission_file preds out false fs =
      (fs, some (existsMsg out)) := by
    simp [create_kaggle_submission_file, hshape, hrange, hsum, hex]
  have h0 : create_kaggle_submission_file preds out false fs0 =
      ((out, submissionContent preds) :: fs0, none) := by
    simp [create_kaggle_submission_file, hshape, hrange, hsum, hfresh]
  refine ⟨h1, by rw [h1], ?_⟩
  rw [h0]
  simp [create_kaggle_submission_file, hshape, hrange, hsum, List.lookup]

/-- Witness for the amended C4 on the uniform matrix: an occupied
destination is refused, and a second call on a freshly written path is
refused as well. -/
theorem create_kaggle_overwrite_error_amended_witness :
    (([("submission.csv", "old")] : FS).lookup "submission.csv").isSome = true ∧
    create_kaggle_submission_file uniformPreds "submission.csv" false
        [("submission.csv", "old")] =
      ([("submission.csv", "old")], some (existsMsg "submission.csv")) ∧
    (create_kaggle_submission_file uniformPreds "submission.csv" false
        [("submission.csv", "old")]).1.lookup "submission.csv" =
      ([("submission.csv", "old")] : FS).lookup "submission.csv" ∧
    (create_kaggle_submission_file uniformPreds "submission.csv" false
        (create_kaggle_submission_file uniformPreds "submission.csv" false []).1).2 =
      some (existsMsg "submission.csv") := by
  have h := create_kaggle_overwrite_error_amended uniformPreds "submission.csv"
    [("submission.csv", "old")] [] shapeCheck_uniform rangeCheck_uniform
    sumCheck_uniform (by decide) rfl
  exact ⟨by decide, h.1, h.2.1, h.2.2⟩

/-- C10: `create_kaggle_submission_file` performs its checks in the fixed
order shape, entry range, row sums, destination existence, and writes only
after all four pass: whichever earliest check fails determines the error,
the file system is untouched on any error, and no check is skipped before
a write. -/
theorem create_kaggle_check_order (preds : List (List ℚ)) (out : String)
    (ov : Bool) (fs : FS) :
    (shapeCheck preds = false →
      create_kaggle_submission_file preds out ov fs = (fs, some shapeMsg)) ∧
    (shapeCheck preds = true → rangeCheck preds = false →
      create_kaggle_submission_file preds out ov fs = (fs, some rangeMsg)) ∧
    (shapeCheck preds = true → rangeCheck preds = true → sumCheck preds = false →
      create_kaggle_submission_file preds out ov fs = (fs, some sumMsg)) ∧
    (shapeCheck preds = true → rangeCheck preds = true → sumCheck preds = true →
      (fs.lookup out).isSome = true → ov = false →
      create_kaggle_submission_file preds out ov fs = (fs, some (existsMsg out))) ∧
    (shapeCheck preds = true → rangeCheck preds = true → sumCheck preds = true →
      ((fs.lookup out).isSome = false ∨ ov = true) →
      create_kaggle_submission_file preds out ov fs =
        ((out, submissionContent preds) :: fs, none)) := by
  refine ⟨?_, ?_, ?_, ?_, ?_⟩
  · intro h1
    simp [create_kaggle_submission_file, h1]
  · intro h1 h2
    simp [create_kaggle_submission_file, h1, h2]
  · intro h1 h2 h3
    simp [create_kaggle_submission_file, h1, h2, h3]
  · intro h1 h2 h3 h4 h5
    simp [create_kaggle_submission_file, h1, h2, h3, h4, h5]
  · intro h1 h2 h3 h4
    rcases h4 with h | h
    · simp [create_kaggle_submission_file, h1, h2, h3, h]
    · simp [create_kaggle_submission_file, h1, h2, h3, h]

/-- Witness for C10: a multi-violation input (shape invalid, entry outside
[0, 1], row sum wrong, destination occupied) gets the earliest check's
error; inputs failing exactly one later check get that check's error; a
fully valid input is written. -/
theorem create_kaggle_check_order_witness :
    shapeCheck [[(2 : ℚ)]] = false ∧
    create_kaggle_submission_file [[(2 : ℚ)]] "submission.csv" false
        [("submission.csv", "old")] =
      ([("submission.csv", "old")], some shapeMsg) ∧
    rangeCheck twoPreds = false ∧
    create_kaggle_submission_file twoPreds "submission.csv" false [] =
      ([], some rangeMsg) ∧
    sumCheck zeroPreds = false ∧
    create_kaggle_submission_file zeroPreds "submission.csv" false [] =
      ([], some sumMsg) ∧
    create_kaggle_submission_file uniformPreds "submission.csv" false
        [("submission.csv", "old")] =
      ([("submission.csv", "old")], some (existsMsg "submission.csv")) ∧
    create_kaggle_submission_file uniformPreds "submission.csv" false [] =
      ([("submission.csv", submissionContent uniformPreds)], none) :=
  ⟨rfl,
    (create_kaggle_check_order [[(2 : ℚ)]] "submission.csv" false
      [("submission.csv", "old")]).1 rfl,
    rangeCheck_two,
    (create_kaggle_check_order twoPreds "submission.csv" false []).2.1
      shapeCheck_two rangeCheck_two,
    sumCheck_zero,
    (create_kaggle_check_order zeroPreds "submission.csv" false []).2.2.1
      shapeCheck_zero rangeCheck_zero sumCheck_zero,
    (create_kaggle_check_order uniformPreds "submission.csv" false
      [("submission.csv", "old")]).2.2.2.1 shapeCheck_uniform rangeCheck_uniform
      sumCheck_uniform (by decide) rfl,
    (create_kaggle_check_order uniformPreds "submission.csv" false []).2.2.2.2
      shapeCheck_uniform rangeCheck_uniform sumCheck_uniform (Or.inl rfl)⟩

/-- C5: for every dataset and every valid `batch_size` that divides N, a
constructed provider satisfies `num_batches * batch_size = N`, and pulling
exactly `num_batches` batches in one pass consumes slices of
`current_order` that together form a permutation of `0..N-1` — every index
exactly once. -/
theorem provider_full_pass_coverage (split : String) (ds : Dataset) (b : Int)
    (sh : Bool) (seed : Nat) (p : Provider)
    (hmk : makeProvider split ds b sh seed = .ok p)
    (hdvd : p.batch_size ∣ p.N) :
    p.num_batches * p.batch_size = p.N ∧
    (pullSlices ds p.num_batches p).1.flatten.Perm (List.range p.N) := by
  obtain ⟨hN, hb, hbN, hcur, hperm, hlen⟩ := makeProvider_ok _ _ _ _ _ _ hmk
  have hmb : p.num_batches * p.batch_size = p.N := Nat.div_mul_cancel hdvd
  refine ⟨hmb, ?_⟩
  have h1 := pullSlices_run ds p.num_batches p (by rw [hcur, hmb]; omega)
  rw [h1, hcur, hmb, List.drop_zero, List.take_of_length_le (le_of_eq hlen)]
  exact hperm

/-- Witness for C5: the 4-row dataset with `batch_size = 2`. -/
theorem provider_full_pass_coverage_witness :
    makeProvider "train" demoDS 2 false 0 = .ok demoProv ∧
    demoProv.batch_size ∣ demoProv.N ∧
    demoProv.num_batches * demoProv.batch_size = demoProv.N ∧
    (pullSlices demoDS demoProv.num_batches demoProv).1.flatten.Perm
      (List.range demoProv.N) := by
  have h := provider_full_pass_coverage "train" demoDS 2 false 0 demoProv rfl
    (by decide)
  exact ⟨rfl, by decide, h.1, h.2⟩

/-- C6: two providers constructed over the same dataset with the same fixed
seed and `shuffle_flag = true` have identical `current_order` sequences over
all passes — the shuffled order is a deterministic function of the seed. -/
theorem provider_seed_determinism (s1 s2 : String) (ds : Dataset) (b : Int)
    (seed : Nat) (p1 p2 : Provider)
    (h1 : makeProvider s1 ds b true seed = .ok p1)
    (h2 : makeProvider s2 ds b true seed = .ok p2) :
    ∀ k, (afterResets p1 k).current_order = (afterResets p2 k).current_order := by
  have hp : p1 = p2 := by
    unfold makeProvider at h1 h2
    by_cases hc1 : b ≤ 0 ∨ (ds.size : Int) < b ∨ s1 ∉ validSplits
    · rw [if_pos hc1] at h1
      exact absurd h1 (by simp)
    · rw [if_neg hc1] at h1
      by_cases hc2 : b ≤ 0 ∨ (ds.size : Int) < b ∨ s2 ∉ validSplits
      · rw [if_pos hc2] at h2
        exact absurd h2 (by simp)
      · rw [if_neg hc2] at h2
        simp only [Except.ok.injEq] at h1 h2
        rw [← h1, ← h2]
  intro k
  rw [hp]

/-- Witness for C6: the "train" and "valid" providers with seed 7 agree on
the ordering of their fourth pass. -/
theorem provider_seed_determinism_witness :
    makeProvider "train" demoDS 1 true 7 = .ok demoShufProv ∧
    makeProvider "valid" demoDS 1 true 7 = .ok demoShufProv ∧
    (afterResets demoShufProv 3).current_order =
      (afterResets demoShufProv 3).current_order :=
  ⟨rfl, rfl,
    provider_seed_determinism "train" "valid" demoDS 1 7 demoShufProv demoShufProv
      rfl rfl 3⟩

/-- C7: for every integer label `k` with `0 ≤ k < c`, the one-hot expansion
performed by `next_batch` produces a vector of length `c` whose entry at
position `k` is 1 and whose entries at all other positions are 0 — exactly
one entry equal to 1. -/
theorem one_hot_correct (c k : Nat) (hk : k < c) :
    (oneHot c k).length = c ∧
    (oneHot c k)[k]? = some 1 ∧
    (∀ j, j < c → j ≠ k → (oneHot c k)[j]? = some 0) ∧
    (oneHot c k).count 1 = 1 := by
  refine ⟨by simp [oneHot], ?_, ?_, ?_⟩
  · unfold oneHot
    rw [List.getElem?_map, List.getElem?_range hk]
    simp
  · intro j hj hjk
    unfold oneHot
    rw [List.getElem?_map, List.getElem?_range hj]
    simp [hjk]
  · unfold oneHot
    rw [List.count_eq_countP, List.countP_map]
    have he : ((fun x => x == 1) ∘ fun j => if j = k then 1 else 0) =
        fun j => j == k := by
      funext j
      by_cases h : j = k <;> simp [h]
    rw [he, ← List.count_eq_countP,
      List.count_eq_one_of_mem (List.nodup_range c) (List.mem_range.mpr hk)]

/-- Witness for C7 at `c = 5`, `k = 2`. -/
theorem one_hot_correct_witness :
    2 < 5 ∧ (oneHot 5 2).length = 5 ∧ (oneHot 5 2)[2]? = some 1 ∧
    (oneHot 5 2)[4]? = some 0 ∧ (oneHot 5 2).count 1 = 1 := by
  have h := one_hot_correct 5 2 (by norm_num)
  exact ⟨by norm_num, h.1, h.2.1, h.2.2.1 4 (by norm_num) (by norm_num), h.2.2.2⟩

set_option maxRecDepth 40000 in
/-- C8: when a pass is exhausted (`cursor + batch_size > N`), `next_batch`
signals exhaustion (and emits no batch), the provider autonomously calls
`reset_pass()`, and the very next call begins a fresh pass whose
`num_batches` pulls again cover every index exactly once.  Concretely, for
N = 100, `batch_size` = 50, shuffle off, the five successive pulls yield the
two batches [0..49], [50..99] of pass 1, one end-of-pass signal, and the two
batches [0..49], [50..99] of pass 2. -/
theorem provider_exhaustion_reset (ds : Dataset) (p : Provider)
    (hex : p.N < p.cursor + p.batch_size) (hb : 0 < p.batch_size)
    (hbN : p.batch_size ≤ p.N) (hdvd : p.batch_size ∣ p.N) :
    next_batch ds p = (none, resetPass p) ∧
    (resetPass p).cursor = 0 ∧
    (next_batch ds (resetPass p)).1.isSome = true ∧
    (pullSlices ds p.num_batches (resetPass p)).1.flatten.Perm (List.range p.N) ∧
    (pullSlices ds100 5 prov100).1 =
      [List.range 50, (List.range 100).drop 50,
        List.range 50, (List.range 100).drop 50] := by
  have hN : (resetPass p).N = p.N := by unfold resetPass; rfl
  have hbs : (resetPass p).batch_size = p.batch_size := by unfold resetPass; rfl
  have hcur0 : (resetPass p).cursor = 0 := by unfold resetPass; rfl
  have hmb : p.num_batches * p.batch_size = p.N := Nat.div_mul_cancel hdvd
  refine ⟨?_, hcur0, ?_, ?_, by decide⟩
  · unfold next_batch
    rw [if_pos hex]
  · have hcond : ¬ ((resetPass p).N < (resetPass p).cursor + (resetPass p).batch_size) := by
      rw [hN, hcur0, hbs]
      omega
    unfold next_batch
    rw [if_neg hcond]
    rfl
  · have hrun := pullSlices_run ds p.num_batches (resetPass p)
      (by rw [hN, hcur0, hbs]; omega)
    rw [hrun, hcur0, hbs]
    have hordperm := resetPass_order p
    have hordlen : (resetPass p).current_order.length = p.N :=
      hordperm.length_eq.trans (List.length_range _)
    rw [List.drop_zero, hmb, List.take_of_length_le (le_of_eq hordlen)]
    exact hordperm

set_option maxRecDepth 40000 in
/-- Witness for C8: the scenario provider after pass 1 is exhausted. -/
theorem provider_exhaustion_reset_witness :
    prov100end.N < prov100end.cursor + prov100end.batch_size ∧
    0 < prov100end.batch_size ∧ prov100end.batch_size ≤ prov100end.N ∧
    prov100end.batch_size ∣ prov100end.N ∧
    next_batch ds100 prov100end = (none, resetPass prov100end) ∧
    (resetPass prov100end).cursor = 0 ∧
    (next_batch ds100 (resetPass prov100end)).1.isSome = true ∧
    (pullSlices ds100 prov100end.num_batches (resetPass prov100end)).1.flatten.Perm
      (List.range prov100end.N) := by
  have h := provider_exhaustion_reset ds100 prov100end (by decide) (by decide)
    (by decide) (by decide)
  exact ⟨by decide, by decide, by decide, by decide, h.1, h.2.1, h.2.2.1, h.2.2.2.1⟩

/-- C9: provider construction fails with `ConfigurationError` — at
construction time, by returning the error instead of a provider — whenever
`batch_size ≤ 0`, `batch_size > N` or the split identifier is invalid, and
succeeds for all valid arguments. -/
theorem provider_construction_validation (split : String) (ds : Dataset)
    (b : Int) (sh : Bool) (seed : Nat) :
    ((b ≤ 0 ∨ (ds.size : Int) < b ∨ split ∉ validSplits) →
      makeProvider split ds b sh seed = .error .configurationError) ∧
    (0 < b → b ≤ (ds.size : Int) → split ∈ validSplits →
      (makeProvider split ds b sh seed).isOk = true) := by
  constructor
  · intro hc
    unfold makeProvider
    rw [if_pos hc]
  · intro h1 h2 h3
    unfold makeProvider
    rw [if_neg (by push_neg; exact ⟨h1, h2, h3⟩)]
    rfl

/-- Witness for C9: `batch_size = 0`, an unknown split, and
`batch_size > N` are each refused; a valid configuration succeeds. -/
theorem provider_construction_validation_witness :
    makeProvider "train" demoDS 0 true 0 = .error .configurationError ∧
    makeProvider "holdout" demoDS 1 true 0 = .error .configurationError ∧
    makeProvider "train" demoDS 5 true 0 = .error .configurationError ∧
    (makeProvider "train" demoDS 2 false 0).isOk = true := by
  refine ⟨?_, ?_, ?_, ?_⟩
  · exact (provider_construction_validation "train" demoDS 0 true 0).1
      (Or.inl (by norm_num))
  · exact (provider_construction_validation "holdout" demoDS 1 true 0).1
      (Or.inr (Or.inr (by decide)))
  · exact (provider_construction_validation "train" demoDS 5 true 0).1
      (Or.inr (Or.inl (by decide)))
  · exact (provider_construction_validation "train" demoDS 2 false 0).2
      (by norm_num) (by decide) (by decide)
